import Mathlib

/-!
Shallow embedding of `src/scripts/tools/silkscreen_calc.py`.

The module defines two pure functions, `calc_silk_x` and `calc_silk_y`,
that pick two silkscreen line segments (pairs of axis coordinates) from a
three-element candidate set, depending on the declared pin-1 start corner
found in `device_params["pad_numbers"]["start"]`.

Python values that can appear in the `device_params` dictionary are
modelled by the inductive `PyVal` (None, numbers, strings, dictionaries as
association lists).  `body_edge` is modelled as an association list from
strings to integers.  Fallible dictionary subscription, `.get` on
non-dictionaries, `.split` on non-strings and tuple-unpacking of a list of
the wrong length are modelled in the `Except PyErr` monad.
-/

/-- A Python value as it may occur in the `device_params` dictionary. -/
inductive PyVal where
  | none : PyVal
  | num (n : Int) : PyVal
  | str (s : String) : PyVal
  | dict (entries : List (String × PyVal)) : PyVal

/-- Python truthiness of a `PyVal` (`bool(v)`). -/
def pyTruthy : PyVal → Bool
  | .none => false
  | .num n => n != 0
  | .str s => s != ""
  | .dict d => !d.isEmpty

/-- The runtime errors the two functions can raise. -/
inductive PyErr where
  | keyError (k : String) : PyErr
  | attributeError : PyErr
  | valueError : PyErr
deriving DecidableEq, Repr

/-- `d.get(k)` on a Python dictionary: `None` when the key is absent. -/
def dGet (d : List (String × PyVal)) (k : String) : PyVal :=
  (d.lookup k).getD .none

/-- `d[k]` on a Python dictionary: raises `KeyError` when the key is absent. -/
def dSub (d : List (String × PyVal)) (k : String) : Except PyErr PyVal :=
  match d.lookup k with
  | some v => .ok v
  | Option.none => .error (.keyError k)

/-- `v.get(k)` on an arbitrary Python value: only dictionaries have `.get`,
anything else raises `AttributeError`. -/
def pyGetM (v : PyVal) (k : String) : Except PyErr PyVal :=
  match v with
  | .dict d => .ok (dGet d k)
  | _ => .error .attributeError

/-- `body_edge[k]`: subscription into the numeric body-edge dictionary,
raising `KeyError` when the key is absent. -/
def beSub (d : List (String × Int)) (k : String) : Except PyErr Int :=
  match d.lookup k with
  | some v => .ok v
  | Option.none => .error (.keyError k)

/-- Is `pat` a leading segment of `l`? (helper for Python `in` on strings). -/
def leadMatch : List Char → List Char → Bool
  | [], _ => true
  | _ :: _, [] => false
  | a :: as, b :: bs => a == b && leadMatch as bs

/-- Does `l` contain `pat` as a contiguous sub-sequence? -/
def hasSub (pat : List Char) : List Char → Bool
  | [] => pat.isEmpty
  | c :: rest => leadMatch pat (c :: rest) || hasSub pat rest

/-- Python `pat in s` on strings: substring containment. -/
def pyIn (pat s : String) : Bool :=
  hasSub pat.toList s.toList

/-- Split a character list at every occurrence of `c`; the pieces do not
contain `c`, and `n` occurrences of `c` yield `n + 1` pieces (matching
Python `str.split` with an explicit non-empty separator). -/
def splitChAux (c : Char) : List Char → List (List Char)
  | [] => [[]]
  | a :: rest =>
    match splitChAux c rest with
    | [] => [[]]
    | h :: t => if a == c then [] :: h :: t else (a :: h) :: t

/-- Python `s.split("_")`. -/
def pySplitUnd (s : String) : List String :=
  (splitChAux '_' s.toList).map String.mk

/-- `v.split("_")` on an arbitrary Python value: only strings have
`.split`, anything else raises `AttributeError`. -/
def pySplitV (v : PyVal) : Except PyErr (List String) :=
  match v with
  | .str s => .ok (pySplitUnd s)
  | _ => .error .attributeError

/-- A silkscreen line: the pair of (from, to) coordinates along one axis. -/
abbrev Line := Int × Int

/-- `calc_silk_x(device_params, body_edge)` from
`src/scripts/tools/silkscreen_calc.py` (lines 71-109), statement by
statement.  `lines[0]`, `lines[1]`, `lines[2]` of the source's candidate
list are accessed through `List.getD` (the indices are statically in
range, so the default is never used). -/
def calc_silk_x (device_params : List (String × PyVal))
    (body_edge : List (String × Int)) : Except PyErr (Line × Line) :=
  match beSub body_edge "left" with
  | .error e => .error e
  | .ok left =>
  match beSub body_edge "right" with
  | .error e => .error e
  | .ok right =>
  let lines : List Line := [(0, left), (0, right), (left, right)]
  -- Default silkscreen lines
  let line1 := lines.getD 1 (0, 0)
  let line2 := lines.getD 2 (0, 0)
  if pyTruthy (dGet device_params "pad_numbers") then
    match dSub device_params "pad_numbers" with
    | .error e => .error e
    | .ok pn =>
    match pyGetM pn "start" with
    | .error e => .error e
    | .ok startRaw =>
    -- start = device_params["pad_numbers"].get("start") or "top_left"
    let startV := if pyTruthy startRaw then startRaw else .str "top_left"
    match pySplitV startV with
    | .error e => .error e
    | .ok parts =>
    -- tb, lr = start.split("_")
    match parts with
    | [tb, lr] =>
      if pyIn "top" tb then
        let line2 := lines.getD 2 (0, 0)
        let line1 := if pyIn "left" lr then lines.getD 1 (0, 0)
                     else lines.getD 0 (0, 0)
        .ok (line1, line2)
      else
        let line1 := lines.getD 2 (0, 0)
        let line2 := if pyIn "left" lr then lines.getD 1 (0, 0)
                     else lines.getD 0 (0, 0)
        .ok (line1, line2)
    | _ => .error .valueError
  else
    .ok (line1, line2)

/-- `calc_silk_y(device_params, body_edge)` from
`src/scripts/tools/silkscreen_calc.py` (lines 112-149): the `top`/`bottom`
mirror of `calc_silk_x`, with the left/right token (not the top/bottom
token) selecting which slot receives the dual-edge candidate. -/
def calc_silk_y (device_params : List (String × PyVal))
    (body_edge : List (String × Int)) : Except PyErr (Line × Line) :=
  match beSub body_edge "top" with
  | .error e => .error e
  | .ok top =>
  match beSub body_edge "bottom" with
  | .error e => .error e
  | .ok bottom =>
  let lines : List Line := [(0, top), (0, bottom), (top, bottom)]
  -- Default silkscreen lines
  let line1 := lines.getD 1 (0, 0)
  let line2 := lines.getD 2 (0, 0)
  if pyTruthy (dGet device_params "pad_numbers") then
    match dSub device_params "pad_numbers" with
    | .error e => .error e
    | .ok pn =>
    match pyGetM pn "start" with
    | .error e => .error e
    | .ok startRaw =>
    let startV := if pyTruthy startRaw then startRaw else .str "top_left"
    match pySplitV startV with
    | .error e => .error e
    | .ok parts =>
    match parts with
    | [tb, lr] =>
      if pyIn "left" lr then
        let line2 := lines.getD 2 (0, 0)
        let line1 := if pyIn "top" tb then lines.getD 1 (0, 0)
                     else lines.getD 0 (0, 0)
        .ok (line1, line2)
      else
        let line1 := lines.getD 2 (0, 0)
        let line2 := if pyIn "top" tb then lines.getD 1 (0, 0)
                     else lines.getD 0 (0, 0)
        .ok (line1, line2)
    | _ => .error .valueError
  else
    .ok (line1, line2)

/-- A `device_params` dictionary declaring the given start corner. -/
def startParams (s : String) : List (String × PyVal) :=
  [("pad_numbers", .dict [("start", .str s)])]

/-- The X-axis line pair selected for an effective corner: `isTop` is
whether the first token contains `"top"`, `isLeft` whether the second
contains `"left"`. -/
def cornerLinesX (isTop isLeft : Bool) (L R : Int) : Line × Line :=
  if isTop then ((if isLeft then (0, R) else (0, L)), (L, R))
  else ((L, R), (if isLeft then (0, R) else (0, L)))

/-- The Y-axis line pair selected for an effective corner. -/
def cornerLinesY (isTop isLeft : Bool) (T B : Int) : Line × Line :=
  if isLeft then ((if isTop then (0, B) else (0, T)), (T, B))
  else ((T, B), (if isTop then (0, B) else (0, T)))

/-- What `calc_silk_x` computes once `pad_numbers` is a truthy dictionary
whose `start` entry is the string `s`. -/
def xFromStart (s : String) (L R : Int) : Except PyErr (Line × Line) :=
  match pySplitUnd (if s = "" then "top_left" else s) with
  | [tb, lr] => .ok (cornerLinesX (pyIn "top" tb) (pyIn "left" lr) L R)
  | _ => .error .valueError

/-- What `calc_silk_y` computes once `pad_numbers` is a truthy dictionary
whose `start` entry is the string `s`. -/
def yFromStart (s : String) (T B : Int) : Except PyErr (Line × Line) :=
  match pySplitUnd (if s = "" then "top_left" else s) with
  | [tb, lr] => .ok (cornerLinesY (pyIn "top" tb) (pyIn "left" lr) T B)
  | _ => .error .valueError

lemma calc_silk_x_default (dp : List (String × PyVal))
    (be : List (String × Int)) (L R : Int)
    (h : pyTruthy (dGet dp "pad_numbers") = false)
    (hL : be.lookup "left" = some L) (hR : be.lookup "right" = some R) :
    calc_silk_x dp be = .ok ((0, R), (L, R)) := by
  simp [calc_silk_x, beSub, hL, hR, h]

lemma calc_silk_y_default (dp : List (String × PyVal))
    (be : List (String × Int)) (T B : Int)
    (h : pyTruthy (dGet dp "pad_numbers") = false)
    (hT : be.lookup "top" = some T) (hB : be.lookup "bottom" = some B) :
    calc_silk_y dp be = .ok ((0, B), (T, B)) := by
  simp [calc_silk_y, beSub, hT, hB, h]

lemma calc_silk_x_eval_start (dp : List (String × PyVal))
    (be : List (String × Int)) (pn : List (String × PyVal)) (s : String)
    (L R : Int)
    (hpn : dp.lookup "pad_numbers" = some (.dict pn)) (hne : pn ≠ [])
    (hs : pn.lookup "start" = some (.str s))
    (hL : be.lookup "left" = some L) (hR : be.lookup "right" = some R) :
    calc_silk_x dp be = xFromStart s L R := by
  have hemp : pn.isEmpty = false := by cases pn with
    | nil => exact absurd rfl hne
    | cons a t => rfl
  by_cases hse : s = ""
  · subst hse
    simp [calc_silk_x, beSub, hL, hR, dGet, hpn, pyTruthy, hemp, dSub,
      pyGetM, hs, pySplitV, xFromStart]
    rfl
  · have hst : (s != "") = true := by simp [bne_iff_ne, hse]
    simp only [calc_silk_x, beSub, hL, hR, dGet, hpn, Option.getD_some,
      pyTruthy, hemp, Bool.not_false, if_true, dSub, pyGetM, hs, hst,
      pySplitV, xFromStart, if_neg hse]
    cases hp : pySplitUnd s with
    | nil => simp
    | cons a t =>
      cases t with
      | nil => simp
      | cons b t2 =>
        cases t2 with
        | nil =>
          cases hta : pyIn "top" a <;> cases htb : pyIn "left" b <;>
            simp [cornerLinesX, hta, htb]
        | cons c t3 => simp

lemma calc_silk_y_eval_start (dp : List (String × PyVal))
    (be : List (String × Int)) (pn : List (String × PyVal)) (s : String)
    (T B : Int)
    (hpn : dp.lookup "pad_numbers" = some (.dict pn)) (hne : pn ≠ [])
    (hs : pn.lookup "start" = some (.str s))
    (hT : be.lookup "top" = some T) (hB : be.lookup "bottom" = some B) :
    calc_silk_y dp be = yFromStart s T B := by
  have hemp : pn.isEmpty = false := by cases pn with
    | nil => exact absurd rfl hne
    | cons a t => rfl
  by_cases hse : s = ""
  · subst hse
    simp [calc_silk_y, beSub, hT, hB, dGet, hpn, pyTruthy, hemp, dSub,
      pyGetM, hs, pySplitV, yFromStart]
    rfl
  · have hst : (s != "") = true := by simp [bne_iff_ne, hse]
    simp only [calc_silk_y, beSub, hT, hB, dGet, hpn, Option.getD_some,
      pyTruthy, hemp, Bool.not_false, if_true, dSub, pyGetM, hs, hst,
      pySplitV, yFromStart, if_neg hse]
    cases hp : pySplitUnd s with
    | nil => simp
    | cons a t =>
      cases t with
      | nil => simp
      | cons b t2 =>
        cases t2 with
        | nil =>
          cases hta : pyIn "top" a <;> cases htb : pyIn "left" b <;>
            simp [cornerLinesY, hta, htb]
        | cons c t3 => simp

lemma calc_silk_x_no_start (dp : List (String × PyVal))
    (be : List (String × Int)) (pn : List (String × PyVal)) (L R : Int)
    (hpn : dp.lookup "pad_numbers" = some (.dict pn))
    (hs : dGet pn "start" = .none)
    (hL : be.lookup "left" = some L) (hR : be.lookup "right" = some R) :
    calc_silk_x dp be = .ok ((0, R), (L, R)) := by
  cases hemp : pn.isEmpty with
  | true =>
    apply calc_silk_x_default dp be L R _ hL hR
    simp [dGet, hpn, pyTruthy, hemp]
  | false =>
    have hs' : (List.lookup "start" pn).getD PyVal.none = PyVal.none := hs
    simp [calc_silk_x, beSub, hL, hR, dGet, hpn, pyTruthy, hemp, dSub,
      pyGetM, hs']
    rfl

lemma calc_silk_y_no_start (dp : List (String × PyVal))
    (be : List (String × Int)) (pn : List (String × PyVal)) (T B : Int)
    (hpn : dp.lookup "pad_numbers" = some (.dict pn))
    (hs : dGet pn "start" = .none)
    (hT : be.lookup "top" = some T) (hB : be.lookup "bottom" = some B) :
    calc_silk_y dp be = .ok ((0, B), (T, B)) := by
  cases hemp : pn.isEmpty with
  | true =>
    apply calc_silk_y_default dp be T B _ hT hB
    simp [dGet, hpn, pyTruthy, hemp]
  | false =>
    have hs' : (List.lookup "start" pn).getD PyVal.none = PyVal.none := hs
    simp [calc_silk_y, beSub, hT, hB, dGet, hpn, pyTruthy, hemp, dSub,
      pyGetM, hs']
    rfl

lemma calc_silk_x_ok_cases (dp : List (String × PyVal))
    (be : List (String × Int)) (L R : Int) (p : Line × Line)
    (hL : be.lookup "left" = some L) (hR : be.lookup "right" = some R)
    (hp : calc_silk_x dp be = .ok p) :
    p = ((0, R), (L, R)) ∨ p = ((0, L), (L, R)) ∨
    p = ((L, R), (0, R)) ∨ p = ((L, R), (0, L)) := by
  have h1 : pySplitV (PyVal.str "top_left") = .ok ["top", "left"] := rfl
  have h2 : pyIn "top" "top" = true := rfl
  have h3 : pyIn "left" "left" = true := rfl
  simp only [calc_silk_x, beSub, hL, hR] at hp
  split at hp
  · cases hd : dSub dp "pad_numbers" with
    | error e => simp [hd] at hp
    | ok pn =>
      cases hg : pyGetM pn "start" with
      | error e => simp [hd, hg] at hp
      | ok sv =>
        cases ht : pyTruthy sv with
        | false =>
          simp [hd, hg, ht, h1, h2, h3, List.getD] at hp
          simp [hp.symm]
        | true =>
          cases hsp : pySplitV sv with
          | error e => simp [hd, hg, ht, hsp] at hp
          | ok parts =>
            match parts with
            | [] => simp [hd, hg, ht, hsp] at hp
            | [a] => simp [hd, hg, ht, hsp] at hp
            | a :: b :: c :: t => simp [hd, hg, ht, hsp] at hp
            | [tb, lr] =>
              cases hta : pyIn "top" tb <;>
                cases htl : pyIn "left" lr <;>
                simp [hd, hg, ht, hsp, hta, htl, List.getD] at hp <;>
                simp [hp.symm]
  · injection hp with hp
    subst hp
    simp [List.getD]

lemma calc_silk_y_ok_cases (dp : List (String × PyVal))
    (be : List (String × Int)) (T B : Int) (p : Line × Line)
    (hT : be.lookup "top" = some T) (hB : be.lookup "bottom" = some B)
    (hp : calc_silk_y dp be = .ok p) :
    p = ((0, B), (T, B)) ∨ p = ((0, T), (T, B)) ∨
    p = ((T, B), (0, B)) ∨ p = ((T, B), (0, T)) := by
  have h1 : pySplitV (PyVal.str "top_left") = .ok ["top", "left"] := rfl
  have h2 : pyIn "top" "top" = true := rfl
  have h3 : pyIn "left" "left" = true := rfl
  simp only [calc_silk_y, beSub, hT, hB] at hp
  split at hp
  · cases hd : dSub dp "pad_numbers" with
    | error e => simp [hd] at hp
    | ok pn =>
      cases hg : pyGetM pn "start" with
      | error e => simp [hd, hg] at hp
      | ok sv =>
        cases ht : pyTruthy sv with
        | false =>
          simp [hd, hg, ht, h1, h2, h3, List.getD] at hp
          simp [hp.symm]
        | true =>
          cases hsp : pySplitV sv with
          | error e => simp [hd, hg, ht, hsp] at hp
          | ok parts =>
            match parts with
            | [] => simp [hd, hg, ht, hsp] at hp
            | [a] => simp [hd, hg, ht, hsp] at hp
            | a :: b :: c :: t => simp [hd, hg, ht, hsp] at hp
            | [tb, lr] =>
              cases hta : pyIn "top" tb <;>
                cases htl : pyIn "left" lr <;>
                simp [hd, hg, ht, hsp, hta, htl, List.getD] at hp <;>
                simp [hp.symm]
  · injection hp with hp
    subst hp
    simp [List.getD]

/-- C1: for every `body_edge` with numeric fields `left = L` and
`right = R`, and `device_params` whose `pad_numbers.start` is one of the
four valid start-corner tokens, `calc_silk_x` returns exactly the pair of
the X-axis truth table: `top_left ↦ ((0,R),(L,R))`,
`top_right ↦ ((0,L),(L,R))`, `bottom_left ↦ ((L,R),(0,R))`,
`bottom_right ↦ ((L,R),(0,L))`. -/
theorem calc_silk_x_truth_table (dp : List (String × PyVal))
    (be : List (String × Int)) (pn : List (String × PyVal)) (s : String)
    (L R : Int)
    (hpn : dp.lookup "pad_numbers" = some (.dict pn))
    (hs : pn.lookup "start" = some (.str s))
    (hL : be.lookup "left" = some L) (hR : be.lookup "right" = some R) :
    (s = "top_left" → calc_silk_x dp be = .ok ((0, R), (L, R))) ∧
    (s = "top_right" → calc_silk_x dp be = .ok ((0, L), (L, R))) ∧
    (s = "bottom_left" → calc_silk_x dp be = .ok ((L, R), (0, R))) ∧
    (s = "bottom_right" → calc_silk_x dp be = .ok ((L, R), (0, L))) := by
  have hne : pn ≠ [] := by
    intro h
    subst h
    simp at hs
  refine ⟨?_, ?_, ?_, ?_⟩ <;> intro h <;> subst h <;>
    rw [calc_silk_x_eval_start dp be pn _ L R hpn hne hs hL hR] <;> rfl

/-- Witness for C1: the truth table evaluated on the spec's literal
scenario body edge `{left: -2, right: 2}` at all four corners. -/
theorem calc_silk_x_truth_table_witness :
    calc_silk_x (startParams "top_left") [("left", -2), ("right", 2)]
      = .ok ((0, 2), (-2, 2)) ∧
    calc_silk_x (startParams "top_right") [("left", -2), ("right", 2)]
      = .ok ((0, -2), (-2, 2)) ∧
    calc_silk_x (startParams "bottom_left") [("left", -2), ("right", 2)]
      = .ok ((-2, 2), (0, 2)) ∧
    calc_silk_x (startParams "bottom_right") [("left", -2), ("right", 2)]
      = .ok ((-2, 2), (0, -2)) :=
  ⟨(calc_silk_x_truth_table (startParams "top_left")
      [("left", -2), ("right", 2)] _ _ (-2) 2
      rfl rfl rfl rfl).1 rfl,
   (calc_silk_x_truth_table (startParams "top_right")
      [("left", -2), ("right", 2)] _ _ (-2) 2
      rfl rfl rfl rfl).2.1 rfl,
   (calc_silk_x_truth_table (startParams "bottom_left")
      [("left", -2), ("right", 2)] _ _ (-2) 2
      rfl rfl rfl rfl).2.2.1 rfl,
   (calc_silk_x_truth_table (startParams "bottom_right")
      [("left", -2), ("right", 2)] _ _ (-2) 2
      rfl rfl rfl rfl).2.2.2 rfl⟩

/-- C2: for every `body_edge` with numeric fields `top = T` and
`bottom = B`, and `device_params` whose `pad_numbers.start` is one of the
four valid start-corner tokens, `calc_silk_y` returns exactly the pair of
the Y-axis truth table, the left/right component of `start` deciding
which slot receives the dual-edge line: `top_left ↦ ((0,B),(T,B))`,
`bottom_left ↦ ((0,T),(T,B))`, `top_right ↦ ((T,B),(0,B))`,
`bottom_right ↦ ((T,B),(0,T))`. -/
theorem calc_silk_y_truth_table (dp : List (String × PyVal))
    (be : List (String × Int)) (pn : List (String × PyVal)) (s : String)
    (T B : Int)
    (hpn : dp.lookup "pad_numbers" = some (.dict pn))
    (hs : pn.lookup "start" = some (.str s))
    (hT : be.lookup "top" = some T) (hB : be.lookup "bottom" = some B) :
    (s = "top_left" → calc_silk_y dp be = .ok ((0, B), (T, B))) ∧
    (s = "bottom_left" → calc_silk_y dp be = .ok ((0, T), (T, B))) ∧
    (s = "top_right" → calc_silk_y dp be = .ok ((T, B), (0, B))) ∧
    (s = "bottom_right" → calc_silk_y dp be = .ok ((T, B), (0, T))) := by
  have hne : pn ≠ [] := by
    intro h
    subst h
    simp at hs
  refine ⟨?_, ?_, ?_, ?_⟩ <;> intro h <;> subst h <;>
    rw [calc_silk_y_eval_start dp be pn _ T B hpn hne hs hT hB] <;> rfl

/-- Witness for C2: the Y-axis truth table evaluated on the spec's
literal scenario body edge `{top: -3, bottom: 3}` at all four corners. -/
theorem calc_silk_y_truth_table_witness :
    calc_silk_y (startParams "top_left") [("top", -3), ("bottom", 3)]
      = .ok ((0, 3), (-3, 3)) ∧
    calc_silk_y (startParams "bottom_left") [("top", -3), ("bottom", 3)]
      = .ok ((0, -3), (-3, 3)) ∧
    calc_silk_y (startParams "top_right") [("top", -3), ("bottom", 3)]
      = .ok ((-3, 3), (0, 3)) ∧
    calc_silk_y (startParams "bottom_right") [("top", -3), ("bottom", 3)]
      = .ok ((-3, 3), (0, -3)) :=
  ⟨(calc_silk_y_truth_table (startParams "top_left")
      [("top", -3), ("bottom", 3)] _ _ (-3) 3
      rfl rfl rfl rfl).1 rfl,
   (calc_silk_y_truth_table (startParams "bottom_left")
      [("top", -3), ("bottom", 3)] _ _ (-3) 3
      rfl rfl rfl rfl).2.1 rfl,
   (calc_silk_y_truth_table (startParams "top_right")
      [("top", -3), ("bottom", 3)] _ _ (-3) 3
      rfl rfl rfl rfl).2.2.1 rfl,
   (calc_silk_y_truth_table (startParams "bottom_right")
      [("top", -3), ("bottom", 3)] _ _ (-3) 3
      rfl rfl rfl rfl).2.2.2 rfl⟩

/-- The property claimed in C3 for one axis: of the two returned lines
`a` and `b`, exactly one equals the dual-edge candidate `dual` and the
other equals a single-origin candidate (`s1` or `s2`); never both
dual-edge and never both single-origin. -/
def oneDualOneSingle (dual s1 s2 a b : Line) : Prop :=
  ((a = dual ∧ (b = s1 ∨ b = s2)) ∨ (b = dual ∧ (a = s1 ∨ a = s2))) ∧
  ¬(a = dual ∧ b = dual) ∧
  ¬((a = s1 ∨ a = s2) ∧ (b = s1 ∨ b = s2))

/-- `oneDualOneSingle` lifted over a returned `Except` result. -/
def resultOneDualOneSingle (dual s1 s2 : Line) :
    Except PyErr (Line × Line) → Prop
  | .ok (a, b) => oneDualOneSingle dual s1 s2 a b
  | .error _ => False

instance (dual s1 s2 a b : Line) :
    Decidable (oneDualOneSingle dual s1 s2 a b) := by
  unfold oneDualOneSingle
  infer_instance

instance (dual s1 s2 : Line) (r : Except PyErr (Line × Line)) :
    Decidable (resultOneDualOneSingle dual s1 s2 r) := by
  unfold resultOneDualOneSingle
  cases r with
  | ok p =>
    cases p
    infer_instance
  | error e => infer_instance

/-- Counterexample to C3 as stated: with `left = 0 < right = 1` (an
arbitrary numeric body edge with `left < right`) and start corner
`top_left`, `calc_silk_x` returns the pair `((0,1),(0,1))`, whose two
lines are both value-equal to the dual-edge candidate
`(left,right) = (0,1)` (and both to the single-origin candidate
`(0,right)`), so no line pairing of one dual-edge and one single-origin
line exists. -/
theorem one_dual_one_single_fails_at_left_zero :
    (0 : Int) < 1 ∧
    calc_silk_x (startParams "top_left") [("left", 0), ("right", 1)]
      = .ok ((0, 1), (0, 1)) ∧
    ¬ oneDualOneSingle (0, 1) (0, 0) (0, 1) (0, 1) (0, 1) :=
  ⟨by decide, rfl, by decide⟩

/-- C3 amended: the property additionally needs `left ≠ 0` (X axis) and
`top ≠ 0` (Y axis); the degenerate case `left = 0` (resp. `top = 0`)
makes the dual-edge candidate coincide with a single-origin candidate.
For all four valid start corners and numeric edges with `left < right`,
`left ≠ 0`, `top < bottom`, `top ≠ 0`, exactly one returned line per axis
is value-equal to the dual-edge candidate and the other to a
single-origin candidate, never both dual-edge or both single-origin. -/
theorem one_dual_one_single_of_nonzero_edges (dp : List (String × PyVal))
    (be : List (String × Int)) (pn : List (String × PyVal)) (s : String)
    (L R T B : Int)
    (hpn : dp.lookup "pad_numbers" = some (.dict pn))
    (hs : pn.lookup "start" = some (.str s))
    (hL : be.lookup "left" = some L) (hR : be.lookup "right" = some R)
    (hT : be.lookup "top" = some T) (hB : be.lookup "bottom" = some B)
    (hcorner : s = "top_left" ∨ s = "top_right" ∨
               s = "bottom_left" ∨ s = "bottom_right")
    (hLR : L < R) (hL0 : L ≠ 0) (hTB : T < B) (hT0 : T ≠ 0) :
    resultOneDualOneSingle (L, R) (0, L) (0, R) (calc_silk_x dp be) ∧
    resultOneDualOneSingle (T, B) (0, T) (0, B) (calc_silk_y dp be) := by
  have hne : pn ≠ [] := by
    intro h
    subst h
    simp at hs
  rw [calc_silk_x_eval_start dp be pn s L R hpn hne hs hL hR,
    calc_silk_y_eval_start dp be pn s T B hpn hne hs hT hB]
  rcases hcorner with h | h | h | h <;> subst h <;>
    constructor <;>
    simp only [show ∀ a b : Int, xFromStart "top_left" a b
        = .ok ((0, b), (a, b)) from fun a b => rfl,
      show ∀ a b : Int, xFromStart "top_right" a b
        = .ok ((0, a), (a, b)) from fun a b => rfl,
      show ∀ a b : Int, xFromStart "bottom_left" a b
        = .ok ((a, b), (0, b)) from fun a b => rfl,
      show ∀ a b : Int, xFromStart "bottom_right" a b
        = .ok ((a, b), (0, a)) from fun a b => rfl,
      show ∀ a b : Int, yFromStart "top_left" a b
        = .ok ((0, b), (a, b)) from fun a b => rfl,
      show ∀ a b : Int, yFromStart "top_right" a b
        = .ok ((a, b), (0, b)) from fun a b => rfl,
      show ∀ a b : Int, yFromStart "bottom_left" a b
        = .ok ((0, a), (a, b)) from fun a b => rfl,
      show ∀ a b : Int, yFromStart "bottom_right" a b
        = .ok ((a, b), (0, a)) from fun a b => rfl,
      resultOneDualOneSingle] <;>
    simp [oneDualOneSingle, Prod.mk.injEq, hL0, Ne.symm hL0, hLR.ne,
      hLR.ne', hT0, Ne.symm hT0, hTB.ne, hTB.ne']

/-- Witness for the amended C3 at `left = -2 < right = 2`,
`top = -3 < bottom = 3`, start corner `top_left`. -/
theorem one_dual_one_single_of_nonzero_edges_witness :
    resultOneDualOneSingle (-2, 2) (0, -2) (0, 2)
      (calc_silk_x (startParams "top_left")
        [("left", -2), ("right", 2), ("top", -3), ("bottom", 3)]) ∧
    resultOneDualOneSingle (-3, 3) (0, -3) (0, 3)
      (calc_silk_y (startParams "top_left")
        [("left", -2), ("right", 2), ("top", -3), ("bottom", 3)]) :=
  one_dual_one_single_of_nonzero_edges (startParams "top_left")
    [("left", -2), ("right", 2), ("top", -3), ("bottom", 3)]
    [("start", .str "top_left")] "top_left" (-2) 2 (-3) 3
    rfl rfl rfl rfl rfl rfl (Or.inl rfl)
    (by decide) (by decide) (by decide) (by decide)

/-- C4: with all four numeric body-edge fields present, when
`device_params` has no `pad_numbers` mapping, or `pad_numbers` is a
dictionary without a `start` field, `calc_silk_x` returns
`((0,right),(left,right))` and `calc_silk_y` returns
`((0,bottom),(top,bottom))` — the same results as `start = top_left`. -/
theorem calc_silk_default_no_pad_numbers_or_no_start
    (dp : List (String × PyVal)) (be : List (String × Int))
    (pn : List (String × PyVal)) (L R T B : Int)
    (hL : be.lookup "left" = some L) (hR : be.lookup "right" = some R)
    (hT : be.lookup "top" = some T) (hB : be.lookup "bottom" = some B)
    (hcase : dp.lookup "pad_numbers" = Option.none ∨
      (dp.lookup "pad_numbers" = some (.dict pn) ∧
        pn.lookup "start" = Option.none)) :
    calc_silk_x dp be = .ok ((0, R), (L, R)) ∧
    calc_silk_y dp be = .ok ((0, B), (T, B)) ∧
    calc_silk_x dp be = calc_silk_x (startParams "top_left") be ∧
    calc_silk_y dp be = calc_silk_y (startParams "top_left") be := by
  have hx : calc_silk_x dp be = .ok ((0, R), (L, R)) := by
    rcases hcase with h | ⟨h, hstart⟩
    · exact calc_silk_x_default dp be L R (by simp [dGet, h, pyTruthy])
        hL hR
    · exact calc_silk_x_no_start dp be pn L R h (by simp [dGet, hstart])
        hL hR
  have hy : calc_silk_y dp be = .ok ((0, B), (T, B)) := by
    rcases hcase with h | ⟨h, hstart⟩
    · exact calc_silk_y_default dp be T B (by simp [dGet, h, pyTruthy])
        hT hB
    · exact calc_silk_y_no_start dp be pn T B h (by simp [dGet, hstart])
        hT hB
  have hxtl : calc_silk_x (startParams "top_left") be
      = .ok ((0, R), (L, R)) := by
    rw [calc_silk_x_eval_start (startParams "top_left") be
      [("start", .str "top_left")] "top_left" L R rfl (by simp) rfl hL hR]
    rfl
  have hytl : calc_silk_y (startParams "top_left") be
      = .ok ((0, B), (T, B)) := by
    rw [calc_silk_y_eval_start (startParams "top_left") be
      [("start", .str "top_left")] "top_left" T B rfl (by simp) rfl hT hB]
    rfl
  exact ⟨hx, hy, hx.trans hxtl.symm, hy.trans hytl.symm⟩

/-- Witness for C4: an empty `device_params` and a `device_params` whose
`pad_numbers` dictionary has no `start` key both yield the `top_left`
default results. -/
theorem calc_silk_default_no_pad_numbers_or_no_start_witness :
    (calc_silk_x []
        [("left", -2), ("right", 2), ("top", -3), ("bottom", 3)]
        = .ok ((0, 2), (-2, 2)) ∧
     calc_silk_y []
        [("left", -2), ("right", 2), ("top", -3), ("bottom", 3)]
        = .ok ((0, 3), (-3, 3)) ∧
     calc_silk_x []
        [("left", -2), ("right", 2), ("top", -3), ("bottom", 3)]
        = calc_silk_x (startParams "top_left")
            [("left", -2), ("right", 2), ("top", -3), ("bottom", 3)] ∧
     calc_silk_y []
        [("left", -2), ("right", 2), ("top", -3), ("bottom", 3)]
        = calc_silk_y (startParams "top_left")
            [("left", -2), ("right", 2), ("top", -3), ("bottom", 3)]) ∧
    (calc_silk_x [("pad_numbers", .dict [("other", .num 1)])]
        [("left", -2), ("right", 2), ("top", -3), ("bottom", 3)]
        = .ok ((0, 2), (-2, 2)) ∧
     calc_silk_y [("pad_numbers", .dict [("other", .num 1)])]
        [("left", -2), ("right", 2), ("top", -3), ("bottom", 3)]
        = .ok ((0, 3), (-3, 3)) ∧
     calc_silk_x [("pad_numbers", .dict [("other", .num 1)])]
        [("left", -2), ("right", 2), ("top", -3), ("bottom", 3)]
        = calc_silk_x (startParams "top_left")
            [("left", -2), ("right", 2), ("top", -3), ("bottom", 3)] ∧
     calc_silk_y [("pad_numbers", .dict [("other", .num 1)])]
        [("left", -2), ("right", 2), ("top", -3), ("bottom", 3)]
        = calc_silk_y (startParams "top_left")
            [("left", -2), ("right", 2), ("top", -3), ("bottom", 3)]) :=
  ⟨calc_silk_default_no_pad_numbers_or_no_start []
      [("left", -2), ("right", 2), ("top", -3), ("bottom", 3)]
      [] (-2) 2 (-3) 3 rfl rfl rfl rfl (Or.inl rfl),
   calc_silk_default_no_pad_numbers_or_no_start
      [("pad_numbers", .dict [("other", .num 1)])]
      [("left", -2), ("right", 2), ("top", -3), ("bottom", 3)]
      [("other", .num 1)] (-2) 2 (-3) 3 rfl rfl rfl rfl
      (Or.inr ⟨rfl, rfl⟩)⟩

/-- C5: `calc_silk_x` fails with a `KeyError` naming the missing field
when `body_edge` lacks `left` or `right`, and `calc_silk_y` when it lacks
`top` or `bottom`; being `Except`-valued, each operation either returns a
complete pair of lines or fails — there is no partial result. -/
theorem calc_silk_missing_edge_key_fails (dp : List (String × PyVal))
    (be : List (String × Int)) :
    (be.lookup "left" = Option.none →
       calc_silk_x dp be = .error (.keyError "left")) ∧
    (∀ L, be.lookup "left" = some L → be.lookup "right" = Option.none →
       calc_silk_x dp be = .error (.keyError "right")) ∧
    (be.lookup "top" = Option.none →
       calc_silk_y dp be = .error (.keyError "top")) ∧
    (∀ T, be.lookup "top" = some T → be.lookup "bottom" = Option.none →
       calc_silk_y dp be = .error (.keyError "bottom")) := by
  refine ⟨?_, ?_, ?_, ?_⟩
  · intro h
    simp [calc_silk_x, beSub, h]
  · intro L hL h
    simp [calc_silk_x, beSub, hL, h]
  · intro h
    simp [calc_silk_y, beSub, h]
  · intro T hT h
    simp [calc_silk_y, beSub, hT, h]

/-- Witness for C5: concrete body edges missing one of the required keys
make each operation fail with the corresponding `KeyError`. -/
theorem calc_silk_missing_edge_key_fails_witness :
    calc_silk_x [] [] = .error (.keyError "left") ∧
    calc_silk_x [] [("left", 1)] = .error (.keyError "right") ∧
    calc_silk_y [] [] = .error (.keyError "top") ∧
    calc_silk_y [] [("top", 1)] = .error (.keyError "bottom") :=
  ⟨(calc_silk_missing_edge_key_fails [] []).1 rfl,
   (calc_silk_missing_edge_key_fails [] [("left", 1)]).2.1 1 rfl rfl,
   (calc_silk_missing_edge_key_fails [] []).2.2.1 rfl,
   (calc_silk_missing_edge_key_fails [] [("top", 1)]).2.2.2 1 rfl rfl⟩

/-- C6: both operations are deterministic — two calls on identical
inputs yield identical, value-equal outputs; the embedding carries no
state other than the arguments. -/
theorem calc_silk_deterministic (dp1 dp2 : List (String × PyVal))
    (be1 be2 : List (String × Int)) (hdp : dp1 = dp2) (hbe : be1 = be2) :
    calc_silk_x dp1 be1 = calc_silk_x dp2 be2 ∧
    calc_silk_y dp1 be1 = calc_silk_y dp2 be2 := by
  subst hdp
  subst hbe
  exact ⟨rfl, rfl⟩

/-- Witness for C6 at a concrete input. -/
theorem calc_silk_deterministic_witness :
    calc_silk_x (startParams "top_left") [("left", -2), ("right", 2)]
      = calc_silk_x (startParams "top_left") [("left", -2), ("right", 2)] ∧
    calc_silk_y (startParams "top_left") [("left", -2), ("right", 2)]
      = calc_silk_y (startParams "top_left") [("left", -2), ("right", 2)] :=
  calc_silk_deterministic (startParams "top_left")
    (startParams "top_left") [("left", -2), ("right", 2)]
    [("left", -2), ("right", 2)] rfl rfl

/-- The mutable state visible to a call: the `device_params` and
`body_edge` dictionaries passed as arguments. -/
abbrev DPState := List (String × PyVal) × List (String × Int)

/-- `body_edge[k]` as a state operation: a read leaving the state as is. -/
def readBE (k : String) (s : DPState) : Except PyErr Int × DPState :=
  (beSub s.2 k, s)

/-- `device_params.get(k)` as a state operation: a read. -/
def readGet (k : String) (s : DPState) : PyVal × DPState :=
  (dGet s.1 k, s)

/-- `device_params[k]` as a state operation: a read. -/
def readSub (k : String) (s : DPState) : Except PyErr PyVal × DPState :=
  (dSub s.1 k, s)

/-- `calc_silk_x` with the argument dictionaries threaded explicitly
through every statement of the source: each dictionary access is one of
the read operations above (the source contains no operation that writes
into either argument), and the final state is returned with the result. -/
def calc_silk_x_st (s0 : DPState) : Except PyErr (Line × Line) × DPState :=
  match readBE "left" s0 with
  | (.error e, s1) => (.error e, s1)
  | (.ok left, s1) =>
  match readBE "right" s1 with
  | (.error e, s2) => (.error e, s2)
  | (.ok right, s2) =>
  let lines : List Line := [(0, left), (0, right), (left, right)]
  let line1 := lines.getD 1 (0, 0)
  let line2 := lines.getD 2 (0, 0)
  match readGet "pad_numbers" s2 with
  | (pv, s3) =>
  if pyTruthy pv then
    match readSub "pad_numbers" s3 with
    | (.error e, s4) => (.error e, s4)
    | (.ok pn, s4) =>
    match pyGetM pn "start" with
    | .error e => (.error e, s4)
    | .ok startRaw =>
    let startV := if pyTruthy startRaw then startRaw else .str "top_left"
    match pySplitV startV with
    | .error e => (.error e, s4)
    | .ok parts =>
    match parts with
    | [tb, lr] =>
      if pyIn "top" tb then
        (.ok ((if pyIn "left" lr then lines.getD 1 (0, 0)
               else lines.getD 0 (0, 0)), lines.getD 2 (0, 0)), s4)
      else
        (.ok (lines.getD 2 (0, 0),
              (if pyIn "left" lr then lines.getD 1 (0, 0)
               else lines.getD 0 (0, 0))), s4)
    | _ => (.error .valueError, s4)
  else
    (.ok (line1, line2), s3)

/-- `calc_silk_y` with the argument dictionaries threaded explicitly. -/
def calc_silk_y_st (s0 : DPState) : Except PyErr (Line × Line) × DPState :=
  match readBE "top" s0 with
  | (.error e, s1) => (.error e, s1)
  | (.ok top, s1) =>
  match readBE "bottom" s1 with
  | (.error e, s2) => (.error e, s2)
  | (.ok bottom, s2) =>
  let lines : List Line := [(0, top), (0, bottom), (top, bottom)]
  let line1 := lines.getD 1 (0, 0)
  let line2 := lines.getD 2 (0, 0)
  match readGet "pad_numbers" s2 with
  | (pv, s3) =>
  if pyTruthy pv then
    match readSub "pad_numbers" s3 with
    | (.error e, s4) => (.error e, s4)
    | (.ok pn, s4) =>
    match pyGetM pn "start" with
    | .error e => (.error e, s4)
    | .ok startRaw =>
    let startV := if pyTruthy startRaw then startRaw else .str "top_left"
    match pySplitV startV with
    | .error e => (.error e, s4)
    | .ok parts =>
    match parts with
    | [tb, lr] =>
      if pyIn "left" lr then
        (.ok ((if pyIn "top" tb then lines.getD 1 (0, 0)
               else lines.getD 0 (0, 0)), lines.getD 2 (0, 0)), s4)
      else
        (.ok (lines.getD 2 (0, 0),
              (if pyIn "top" tb then lines.getD 1 (0, 0)
               else lines.getD 0 (0, 0))), s4)
    | _ => (.error .valueError, s4)
  else
    (.ok (line1, line2), s3)

lemma calc_silk_x_st_eq (dp : List (String × PyVal))
    (be : List (String × Int)) :
    calc_silk_x_st (dp, be) = (calc_silk_x dp be, (dp, be)) := by
  unfold calc_silk_x_st calc_silk_x readBE readGet readSub
  try dsimp only
  cases hbl : beSub be "left" with
  | error e => rfl
  | ok left =>
    try dsimp only
    cases hbr : beSub be "right" with
    | error e => rfl
    | ok right =>
      try dsimp only
      cases h : pyTruthy (dGet dp "pad_numbers") with
      | false => rfl
      | true =>
        try dsimp only
        cases hd : dSub dp "pad_numbers" with
        | error e => rfl
        | ok pn =>
          try dsimp only
          cases hg : pyGetM pn "start" with
          | error e => rfl
          | ok sv =>
            try dsimp only
            cases ht : pyTruthy sv with
            | false => rfl
            | true =>
              simp only [eq_self_iff_true, if_true]
              cases hsp : pySplitV sv with
              | error e => rfl
              | ok parts =>
                try dsimp only
                rcases parts with _ | ⟨a, _ | ⟨b, _ | ⟨c, t⟩⟩⟩
                · rfl
                · rfl
                · try dsimp only
                  cases hta : pyIn "top" a <;>
                    cases htl : pyIn "left" b <;> rfl
                · rfl

lemma calc_silk_y_st_eq (dp : List (String × PyVal))
    (be : List (String × Int)) :
    calc_silk_y_st (dp, be) = (calc_silk_y dp be, (dp, be)) := by
  unfold calc_silk_y_st calc_silk_y readBE readGet readSub
  try dsimp only
  cases hbl : beSub be "top" with
  | error e => rfl
  | ok top =>
    try dsimp only
    cases hbr : beSub be "bottom" with
    | error e => rfl
    | ok bottom =>
      try dsimp only
      cases h : pyTruthy (dGet dp "pad_numbers") with
      | false => rfl
      | true =>
        try dsimp only
        cases hd : dSub dp "pad_numbers" with
        | error e => rfl
        | ok pn =>
          try dsimp only
          cases hg : pyGetM pn "start" with
          | error e => rfl
          | ok sv =>
            try dsimp only
            cases ht : pyTruthy sv with
            | false => rfl
            | true =>
              simp only [eq_self_iff_true, if_true]
              cases hsp : pySplitV sv with
              | error e => rfl
              | ok parts =>
                try dsimp only
                rcases parts with _ | ⟨a, _ | ⟨b, _ | ⟨c, t⟩⟩⟩
                · rfl
                · rfl
                · try dsimp only
                  cases hta : pyIn "top" a <;>
                    cases htl : pyIn "left" b <;> rfl
                · rfl

/-- C7: neither operation modifies its arguments.  In the state-threaded
embedding, where every dictionary access of the source is an explicit
read of the argument state, the final state equals the initial state for
every input (returning or failing alike), and the computed result is
exactly that of the pure embedding. -/
theorem calc_silk_st_preserves_arguments (dp : List (String × PyVal))
    (be : List (String × Int)) :
    (calc_silk_x_st (dp, be)).2 = (dp, be) ∧
    (calc_silk_x_st (dp, be)).1 = calc_silk_x dp be ∧
    (calc_silk_y_st (dp, be)).2 = (dp, be) ∧
    (calc_silk_y_st (dp, be)).1 = calc_silk_y dp be := by
  rw [calc_silk_x_st_eq, calc_silk_y_st_eq]
  exact ⟨rfl, rfl, rfl, rfl⟩

/-- Counterexample to C8 as stated: the empty string is a start string
that does not split into exactly two underscore-separated tokens
(`"".split("_") = [""]`), yet with a truthy `pad_numbers` dictionary
holding `start = ""` both operations return the default pair instead of
failing, because `start or "top_left"` replaces the falsy empty string
before it is ever split. -/
theorem calc_silk_empty_start_returns :
    pySplitUnd "" = [""] ∧
    calc_silk_x (startParams "") [("left", -2), ("right", 2)]
      = .ok ((0, 2), (-2, 2)) ∧
    calc_silk_y (startParams "") [("top", -3), ("bottom", 3)]
      = .ok ((0, 3), (-3, 3)) :=
  ⟨rfl, rfl, rfl⟩

/-- C8 amended: with the required numeric body-edge keys and a truthy
`pad_numbers` dictionary whose `start` is a string `s`, if `s` splits on
`"_"` into exactly two tokens then both operations return without
raising, a first token not containing the substring `"top"` being
treated as bottom and a second token not containing `"left"` as right;
whereas a *non-empty* `s` that does not split into exactly two tokens
makes both operations fail (the empty string instead falls back to the
`top_left` default). -/
theorem calc_silk_start_token_semantics (dp : List (String × PyVal))
    (be : List (String × Int)) (pn : List (String × PyVal)) (s : String)
    (L R T B : Int)
    (hpn : dp.lookup "pad_numbers" = some (.dict pn))
    (hs : pn.lookup "start" = some (.str s))
    (hL : be.lookup "left" = some L) (hR : be.lookup "right" = some R)
    (hT : be.lookup "top" = some T) (hB : be.lookup "bottom" = some B) :
    (∀ tb lr, pySplitUnd s = [tb, lr] →
       calc_silk_x dp be
         = .ok (cornerLinesX (pyIn "top" tb) (pyIn "left" lr) L R) ∧
       calc_silk_y dp be
         = .ok (cornerLinesY (pyIn "top" tb) (pyIn "left" lr) T B)) ∧
    (s ≠ "" → (pySplitUnd s).length ≠ 2 →
       calc_silk_x dp be = .error .valueError ∧
       calc_silk_y dp be = .error .valueError) := by
  have hne : pn ≠ [] := by
    intro h
    subst h
    simp at hs
  have hx := calc_silk_x_eval_start dp be pn s L R hpn hne hs hL hR
  have hy := calc_silk_y_eval_start dp be pn s T B hpn hne hs hT hB
  constructor
  · intro tb lr hsp
    have hse : s ≠ "" := by
      intro h
      subst h
      rw [show pySplitUnd "" = [""] from rfl] at hsp
      simp at hsp
    rw [hx, hy]
    constructor <;> simp [xFromStart, yFromStart, if_neg hse, hsp]
  · intro hse hlen
    rw [hx, hy]
    constructor <;>
    · simp only [xFromStart, yFromStart, if_neg hse]
      rcases hp : pySplitUnd s with _ | ⟨a, _ | ⟨b, _ | ⟨c, t⟩⟩⟩
      · simp [hp]
      · simp [hp]
      · rw [hp] at hlen
        simp at hlen
      · simp [hp]

/-- Witness for the amended C8: `start = "middle_left"` behaves as
`bottom_left` on both axes, and the three-token `start = "a_b_c"` makes
both operations fail with a `ValueError`. -/
theorem calc_silk_start_token_semantics_witness :
    (calc_silk_x (startParams "middle_left")
        [("left", -2), ("right", 2), ("top", -3), ("bottom", 3)]
        = .ok ((-2, 2), (0, 2)) ∧
     calc_silk_y (startParams "middle_left")
        [("left", -2), ("right", 2), ("top", -3), ("bottom", 3)]
        = .ok ((0, -3), (-3, 3))) ∧
    (calc_silk_x (startParams "a_b_c")
        [("left", -2), ("right", 2), ("top", -3), ("bottom", 3)]
        = .error .valueError ∧
     calc_silk_y (startParams "a_b_c")
        [("left", -2), ("right", 2), ("top", -3), ("bottom", 3)]
        = .error .valueError) :=
  ⟨(calc_silk_start_token_semantics (startParams "middle_left")
      [("left", -2), ("right", 2), ("top", -3), ("bottom", 3)]
      [("start", .str "middle_left")] "middle_left" (-2) 2 (-3) 3
      rfl rfl rfl rfl rfl rfl).1 "middle" "left" rfl,
   (calc_silk_start_token_semantics (startParams "a_b_c")
      [("left", -2), ("right", 2), ("top", -3), ("bottom", 3)]
      [("start", .str "a_b_c")] "a_b_c" (-2) 2 (-3) 3
      rfl rfl rfl rfl rfl rfl).2 (by decide) (by decide)⟩

/-- C9: with the required numeric body-edge keys, a falsy `pad_numbers`
value, or a truthy `pad_numbers` dictionary whose `start` is absent,
`None` or the empty string, all yield the same default (`top_left`)
results as an absent `pad_numbers`, without raising. -/
theorem calc_silk_falsy_pad_numbers_or_blank_start
    (dp : List (String × PyVal)) (be : List (String × Int))
    (pn : List (String × PyVal)) (v : PyVal) (L R T B : Int)
    (hL : be.lookup "left" = some L) (hR : be.lookup "right" = some R)
    (hT : be.lookup "top" = some T) (hB : be.lookup "bottom" = some B)
    (hcase : (dp.lookup "pad_numbers" = some v ∧ pyTruthy v = false) ∨
      (dp.lookup "pad_numbers" = some (.dict pn) ∧
        (pn.lookup "start" = Option.none ∨
         pn.lookup "start" = some PyVal.none ∨
         pn.lookup "start" = some (.str "")))) :
    calc_silk_x dp be = .ok ((0, R), (L, R)) ∧
    calc_silk_y dp be = .ok ((0, B), (T, B)) := by
  rcases hcase with ⟨h, hf⟩ | ⟨h, hstart⟩
  · exact ⟨calc_silk_x_default dp be L R (by simp [dGet, h, hf]) hL hR,
           calc_silk_y_default dp be T B (by simp [dGet, h, hf]) hT hB⟩
  · rcases hstart with hstart | hstart | hstart
    · exact ⟨calc_silk_x_no_start dp be pn L R h (by simp [dGet, hstart])
          hL hR,
        calc_silk_y_no_start dp be pn T B h (by simp [dGet, hstart])
          hT hB⟩
    · exact ⟨calc_silk_x_no_start dp be pn L R h (by simp [dGet, hstart])
          hL hR,
        calc_silk_y_no_start dp be pn T B h (by simp [dGet, hstart])
          hT hB⟩
    · have hne : pn ≠ [] := by
        intro hh
        subst hh
        simp at hstart
      constructor
      · rw [calc_silk_x_eval_start dp be pn "" L R h hne hstart hL hR]
        rfl
      · rw [calc_silk_y_eval_start dp be pn "" T B h hne hstart hT hB]
        rfl

/-- Witness for C9: an empty (falsy) `pad_numbers` dictionary, a `start`
set to `None`, and a `start` set to the empty string all return the
default results. -/
theorem calc_silk_falsy_pad_numbers_or_blank_start_witness :
    (calc_silk_x [("pad_numbers", .dict [])]
        [("left", -2), ("right", 2), ("top", -3), ("bottom", 3)]
        = .ok ((0, 2), (-2, 2)) ∧
     calc_silk_y [("pad_numbers", .dict [])]
        [("left", -2), ("right", 2), ("top", -3), ("bottom", 3)]
        = .ok ((0, 3), (-3, 3))) ∧
    (calc_silk_x [("pad_numbers", .dict [("start", PyVal.none)])]
        [("left", -2), ("right", 2), ("top", -3), ("bottom", 3)]
        = .ok ((0, 2), (-2, 2)) ∧
     calc_silk_y [("pad_numbers", .dict [("start", PyVal.none)])]
        [("left", -2), ("right", 2), ("top", -3), ("bottom", 3)]
        = .ok ((0, 3), (-3, 3))) ∧
    (calc_silk_x (startParams "")
        [("left", -2), ("right", 2), ("top", -3), ("bottom", 3)]
        = .ok ((0, 2), (-2, 2)) ∧
     calc_silk_y (startParams "")
        [("left", -2), ("right", 2), ("top", -3), ("bottom", 3)]
        = .ok ((0, 3), (-3, 3))) :=
  ⟨calc_silk_falsy_pad_numbers_or_blank_start
      [("pad_numbers", .dict [])]
      [("left", -2), ("right", 2), ("top", -3), ("bottom", 3)]
      [] (.dict []) (-2) 2 (-3) 3 rfl rfl rfl rfl
      (Or.inl ⟨rfl, rfl⟩),
   calc_silk_falsy_pad_numbers_or_blank_start
      [("pad_numbers", .dict [("start", PyVal.none)])]
      [("left", -2), ("right", 2), ("top", -3), ("bottom", 3)]
      [("start", PyVal.none)] PyVal.none (-2) 2 (-3) 3 rfl rfl rfl rfl
      (Or.inr ⟨rfl, Or.inr (Or.inl rfl)⟩),
   calc_silk_falsy_pad_numbers_or_blank_start
      (startParams "")
      [("left", -2), ("right", 2), ("top", -3), ("bottom", 3)]
      [("start", .str "")] PyVal.none (-2) 2 (-3) 3 rfl rfl rfl rfl
      (Or.inr ⟨rfl, Or.inr (Or.inr rfl)⟩)⟩

/-- C10: whenever `calc_silk_x` returns, both returned lines belong to
the fixed three-element candidate set `{(0,left),(0,right),(left,right)}`
built from `body_edge`, and whenever `calc_silk_y` returns, both belong
to `{(0,top),(0,bottom),(top,bottom)}`, for any `device_params`
whatsoever. -/
theorem calc_silk_lines_in_candidate_set (dp : List (String × PyVal))
    (be : List (String × Int)) :
    (∀ L R p, be.lookup "left" = some L → be.lookup "right" = some R →
       calc_silk_x dp be = .ok p →
       p.1 ∈ [((0 : Int), L), (0, R), (L, R)] ∧
       p.2 ∈ [((0 : Int), L), (0, R), (L, R)]) ∧
    (∀ T B q, be.lookup "top" = some T → be.lookup "bottom" = some B →
       calc_silk_y dp be = .ok q →
       q.1 ∈ [((0 : Int), T), (0, B), (T, B)] ∧
       q.2 ∈ [((0 : Int), T), (0, B), (T, B)]) := by
  constructor
  · intro L R p hL hR hp
    rcases calc_silk_x_ok_cases dp be L R p hL hR hp with h | h | h | h <;>
      subst h <;> simp
  · intro T B q hT hB hq
    rcases calc_silk_y_ok_cases dp be T B q hT hB hq with h | h | h | h <;>
      subst h <;> simp

/-- Witness for C10 at a concrete input with no `pad_numbers`. -/
theorem calc_silk_lines_in_candidate_set_witness :
    (((0 : Int), (2 : Int)) ∈ [((0 : Int), -2), (0, 2), (-2, 2)] ∧
     ((-2 : Int), (2 : Int)) ∈ [((0 : Int), -2), (0, 2), (-2, 2)]) ∧
    (((0 : Int), (3 : Int)) ∈ [((0 : Int), -3), (0, 3), (-3, 3)] ∧
     ((-3 : Int), (3 : Int)) ∈ [((0 : Int), -3), (0, 3), (-3, 3)]) :=
  ⟨(calc_silk_lines_in_candidate_set []
      [("left", -2), ("right", 2), ("top", -3), ("bottom", 3)]).1
      (-2) 2 ((0, 2), (-2, 2)) rfl rfl rfl,
   (calc_silk_lines_in_candidate_set []
      [("left", -2), ("right", 2), ("top", -3), ("bottom", 3)]).2
      (-3) 3 ((0, 3), (-3, 3)) rfl rfl rfl⟩
